import Mathlib

/-!
Shallow embedding of the qw-track music-guessing game core:
the Score Calculator and guess submission (`GamePlayer`, file
`src/unnamed/part_001`) and the orchestrator-level Track Selector
(`src/src/App.tsx`).  JavaScript number arithmetic is idealised over `ℚ`,
`Math.round` is embedded as round-half-up, and React `useState` state is
made explicit as record-passing.
-/

namespace QwTrack

/-- One artist of a track (`track.artists[i]`). -/
structure Artist where
  name : String
deriving Repr, DecidableEq, Inhabited

/-- One album image (`track.album.images[i]`). -/
structure AlbumImage where
  url : String
deriving Repr, DecidableEq, Inhabited

/-- The album of a track (`track.album`). -/
structure Album where
  name : String
  images : List AlbumImage
deriving Repr, DecidableEq, Inhabited

/-- A Spotify track as used by the game: identifier, display name,
artist list and album. -/
structure Track where
  id : String
  name : String
  artists : List Artist
  album : Album
deriving Repr, DecidableEq, Inhabited

/-- Result of one scored round (`{ score, isCorrect }` in
`calculateScore`). -/
structure GuessResult where
  score : ℤ
  isCorrect : Bool
deriving Repr, DecidableEq, Inhabited

/-- JavaScript `Math.round`: rounds half toward positive infinity,
i.e. `⌊q + 1/2⌋`. -/
def jsRound (q : ℚ) : ℤ := ⌊q + 1/2⌋

/-- The time bonus of `calculateScore` (line 64 of
`src/unnamed/part_001`): `Math.max(0, 1 - (timer / 30))`. -/
def timeBonus (timer : ℚ) : ℚ := max 0 (1 - timer / 30)

/-- Modelled from the spec: `calculateSimilarity` lives in
`src/utils/similarity`, which is not among the provided source files.
The spec contracts it as a pure function into `[0,1]` with
`similarity(a,a) = 1`, `0` when exactly one side is empty and `1` when
both are empty.  This definition is one concrete instance of that
contract, used to instantiate theorems that are generic in the
similarity function. -/
def specSimilarity (a b : String) : ℚ :=
  if a = b then 1 else if a = "" ∨ b = "" then 0 else 1/2

/-- The Score Calculator, `calculateScore` from `src/unnamed/part_001`
lines 60-70, generic in the similarity function it calls:

```js
const titleSimilarity = calculateSimilarity(titleGuess, track.name);
const artistSimilarity = calculateSimilarity(artistGuess, track.artists[0].name);
const averageSimilarity = (titleSimilarity + artistSimilarity) / 2;
const timeBonus = Math.max(0, 1 - (timer / 30));
const score = Math.round((averageSimilarity * 80 + timeBonus * 20) * 100);
return \x7b score, isCorrect: titleSimilarity > 0.8 && artistSimilarity > 0.8 \x7d;
```
-/
def calculateScore (sim : String → String → ℚ) (titleGuess artistGuess : String)
    (track : Track) (timer : ℚ) : GuessResult :=
  let titleSimilarity := sim titleGuess track.name
  let artistSimilarity := sim artistGuess (track.artists.headI).name
  let averageSimilarity := (titleSimilarity + artistSimilarity) / 2
  let bonus := timeBonus timer
  let score := jsRound ((averageSimilarity * 80 + bonus * 20) * 100)
  { score := score
    isCorrect := decide ((0.8 : ℚ) < titleSimilarity) && decide ((0.8 : ℚ) < artistSimilarity) }

/-- One entry of the game history (`addGameResult` argument in
`handleSubmitGuess`). -/
structure GameHistoryEntry where
  trackId : String
  trackName : String
  artistName : String
  albumImage : String
  score : ℤ
  time : ℚ
  timestamp : ℤ
deriving Repr, DecidableEq, Inhabited

/-- The `GamePlayer` component state: the `useState` hooks of
`src/unnamed/part_001` lines 18-23. -/
structure GameState where
  timer : ℚ
  isGuessing : Bool
  titleGuess : String
  artistGuess : String
  result : Option GuessResult
  hasStartedPlaying : Bool
deriving Repr, DecidableEq, Inhabited

/-- `handleSubmitGuess` (lines 72-86): computes the score, stores the
result, and returns the score reported through `onGameComplete` and the
`GameHistoryEntry` passed to `addGameResult`.  `now` is `Date.now()`. -/
def handleSubmitGuess (sim : String → String → ℚ) (track : Track) (now : ℤ)
    (s : GameState) : GameState × ℤ × GameHistoryEntry :=
  let result := calculateScore sim s.titleGuess s.artistGuess track s.timer
  ({ s with result := some result },
   result.score,
   { trackId := track.id
     trackName := track.name
     artistName := (track.artists.headI).name
     albumImage := ((track.album.images.headI).url)
     score := result.score
     time := s.timer
     timestamp := now })

/-- `handlePlayAgain` of `GamePlayer` (lines 88-96): resets the whole
round state and invokes the `onPlayAgain` callback.  The boolean of the
pair records that the callback was invoked. -/
def handlePlayAgain (s : GameState) : GameState × Bool :=
  ({ s with
      timer := 0
      isGuessing := false
      titleGuess := ""
      artistGuess := ""
      result := none
      hasStartedPlaying := false },
   true)

/-- `handlePauseAndGuess` (lines 55-58): awaits `togglePlayback()` and
then sets `isGuessing` to `true`.  `togglePlayback` lives in the
`usePlayer` hook, which is not among the provided source files; modelled
from the spec ("togglePlayback() -> promise" with observable
`isPlaying`) as flipping the playback flag.  The function returns the
new component state and the new playback flag. -/
def handlePauseAndGuess (s : GameState) (isPlaying : Bool) : GameState × Bool :=
  ({ s with isGuessing := true }, !isPlaying)

/-- One element of the playlist-tracks API response
(`response.items`, each holding a `track`). -/
structure PlaylistTrackItem where
  track : Track
deriving Repr, DecidableEq, Inhabited

/-- The orchestrator state of `App` (`src/src/App.tsx`): the `useState`
hooks relevant to track selection.  The played set is embedded as the
insertion-ordered list of its elements. -/
structure AppState where
  currentTrack : Option Track
  error : Option String
  playedTracks : List String
deriving Repr, DecidableEq, Inhabited

/-- JavaScript `new Set([...prev, tid])` on the played set: membership
unchanged if present, else appended. -/
def insertPlayed (played : List String) (tid : String) : List String :=
  if played.contains tid then played else played ++ [tid]

/-- The `validTracks` local of `handlePlaylistSelect` (lines 40-43 of
`src/src/App.tsx`): `response.items.map(item => item.track)
.filter(validateTrack).filter(track => !playedTracks.has(track.id))`. -/
def validUnplayed (validate : Track → Bool) (items : List PlaylistTrackItem)
    (played : List String) : List Track :=
  ((items.map PlaylistTrackItem.track).filter validate).filter
    (fun track => !(played.contains track.id))

/-- `handlePlaylistSelect` from `src/src/App.tsx` lines 37-58.
`validate` is `validateTrack` from `src/utils/validators`, which is not
among the provided source files, so it is a parameter.  `fetchResult`
is the settled promise of `getPlaylistTracks`; `randIdx` is the value of
`Math.floor(Math.random() * validTracks.length)`.

```js
try \x7b
  const response = await getPlaylistTracks(playlist.id);
  const validTracks = response.items.map(item => item.track)
      .filter(validateTrack).filter(track => !playedTracks.has(track.id));
  if (validTracks.length === 0) \x7b
    setError('No more unplayed tracks in this playlist!'); return; \x7d
  const randomTrack = validTracks[Math.floor(Math.random() * validTracks.length)];
  setCurrentTrack(randomTrack);
  setPlayedTracks(prev => new Set([...prev, randomTrack.id]));
  setError(null);
\x7d catch (error) \x7b
  setError('Failed to load tracks. Please try again.'); \x7d
```
-/
def handlePlaylistSelect (validate : Track → Bool)
    (fetchResult : Except String (List PlaylistTrackItem)) (randIdx : ℕ)
    (s : AppState) : AppState :=
  match fetchResult with
  | .error _ => { s with error := some "Failed to load tracks. Please try again." }
  | .ok items =>
    let validTracks := validUnplayed validate items s.playedTracks
    if validTracks.length = 0 then
      { s with error := some "No more unplayed tracks in this playlist!" }
    else
      let randomTrack := validTracks.getD randIdx default
      { currentTrack := some randomTrack
        playedTracks := insertPlayed s.playedTracks randomTrack.id
        error := none }

/-- A concrete track used to instantiate theorems on concrete inputs. -/
def sampleTrack : Track :=
  { id := "t1"
    name := "Song"
    artists := [⟨"Artist"⟩, ⟨"Other"⟩]
    album := { name := "Alb", images := [⟨"http://img"⟩] } }

/-- C1.  The claim states `score = round(avgSimilarity*80 + timeBonus*20)`;
the code (line 65) additionally multiplies by 100 before rounding.  At the
concrete input of an exactly matching guess for `sampleTrack` at elapsed
time 0 (where the spec-contracted similarity is 1 on both components), the
code returns 10000 while the claimed formula gives 100. -/
theorem C1_counterexample :
    (calculateScore specSimilarity "Song" "Artist" sampleTrack 0).score ≠
      jsRound (((specSimilarity "Song" sampleTrack.name +
          specSimilarity "Artist" (sampleTrack.artists.headI).name) / 2) * 80 +
        timeBonus 0 * 20) := by
  simp only [calculateScore, specSimilarity, timeBonus, sampleTrack, List.headI,
    String.reduceEq, jsRound]
  norm_num

/-- C1 (amended).  For every similarity function, guesses, track and
elapsed time, the Score Calculator returns
`round((avgSimilarity*80 + timeBonus*20) * 100)` where `avgSimilarity` is
the mean of the title and artist similarities and
`timeBonus = max(0, 1 - elapsed/30)`; in particular for elapsed ≥ 30 the
time bonus is 0 and contributes nothing to the score. -/
theorem C1_amended_thm (sim : String → String → ℚ) (titleGuess artistGuess : String)
    (track : Track) (elapsed : ℚ) :
    (calculateScore sim titleGuess artistGuess track elapsed).score =
      jsRound ((((sim titleGuess track.name +
          sim artistGuess (track.artists.headI).name) / 2) * 80 +
        timeBonus elapsed * 20) * 100) ∧
    (30 ≤ elapsed → timeBonus elapsed = 0) := by
  refine ⟨rfl, fun h => ?_⟩
  have h30 : elapsed / 30 ≥ 1 := by
    rw [ge_iff_le, le_div_iff₀ (by norm_num : (0:ℚ) < 30)]
    linarith
  simp only [timeBonus, max_eq_left_iff]
  linarith

/-- C1 witness: the amended formula at the concrete input
(`sampleTrack`, exact guesses, elapsed 30), where the inner hypothesis
`30 ≤ elapsed` is discharged. -/
theorem C1_amended_thm_witness :
    (calculateScore specSimilarity "Song" "Artist" sampleTrack 30).score =
      jsRound ((((specSimilarity "Song" sampleTrack.name +
          specSimilarity "Artist" (sampleTrack.artists.headI).name) / 2) * 80 +
        timeBonus 30 * 20) * 100) ∧ timeBonus 30 = 0 :=
  ⟨(C1_amended_thm specSimilarity "Song" "Artist" sampleTrack 30).1,
   (C1_amended_thm specSimilarity "Song" "Artist" sampleTrack 30).2 (by norm_num)⟩

/-- C2.  The claim states the score always lies in [0, 100]; at the
concrete input of an exactly matching guess at elapsed time 0 the code
returns 10000 > 100. -/
theorem C2_counterexample :
    100 < (calculateScore specSimilarity "Song" "Artist" sampleTrack 0).score := by
  have h : (calculateScore specSimilarity "Song" "Artist" sampleTrack 0).score = 10000 := by
    simp only [calculateScore, specSimilarity, timeBonus, sampleTrack, List.headI,
      String.reduceEq, jsRound]
    norm_num
  omega

/-- C2 (amended).  For every input with both similarities in [0,1] (the
spec contract for `calculateSimilarity`) and non-negative elapsed time,
the score is an integer in the closed interval [0, 10000]. -/
theorem C2_amended_thm (sim : String → String → ℚ) (titleGuess artistGuess : String)
    (track : Track) (elapsed : ℚ)
    (hsim : ∀ a b, 0 ≤ sim a b ∧ sim a b ≤ 1) (helapsed : 0 ≤ elapsed) :
    0 ≤ (calculateScore sim titleGuess artistGuess track elapsed).score ∧
    (calculateScore sim titleGuess artistGuess track elapsed).score ≤ 10000 := by
  obtain ⟨ht0, ht1⟩ := hsim titleGuess track.name
  obtain ⟨ha0, ha1⟩ := hsim artistGuess (track.artists.headI).name
  have hb0 : 0 ≤ timeBonus elapsed := le_max_left 0 _
  have hb1 : timeBonus elapsed ≤ 1 := by
    apply max_le (by norm_num)
    have : 0 ≤ elapsed / 30 := by positivity
    linarith
  simp only [calculateScore, jsRound]
  constructor
  · exact Int.le_floor.mpr (by push_cast; nlinarith)
  · have hfl : ⌊(((sim titleGuess track.name + sim artistGuess (track.artists.headI).name) / 2) *
        80 + timeBonus elapsed * 20) * 100 + 1/2⌋ ≤ ⌊(10000 : ℚ) + 1/2⌋ :=
      Int.floor_le_floor (by nlinarith)
    have h2 : ⌊(10000 : ℚ) + 1/2⌋ = 10000 := by norm_num
    omega

/-- C2 witness: the amended bound at the concrete input
(`specSimilarity`, exact guesses, `sampleTrack`, elapsed 0), with the
similarity-contract and non-negativity hypotheses discharged. -/
theorem C2_amended_thm_witness :
    0 ≤ (calculateScore specSimilarity "Song" "Artist" sampleTrack 0).score ∧
    (calculateScore specSimilarity "Song" "Artist" sampleTrack 0).score ≤ 10000 :=
  C2_amended_thm specSimilarity "Song" "Artist" sampleTrack 0
    (by
      intro a b
      simp only [specSimilarity]
      split
      · norm_num
      · split <;> norm_num)
    (by norm_num)

/-- C3.  Holding the similarity function, guesses and track fixed (hence
both similarities fixed), the score is monotonically non-increasing in
the elapsed time. -/
theorem C3_score_antitone (sim : String → String → ℚ) (titleGuess artistGuess : String)
    (track : Track) (t1 t2 : ℚ) (h : t1 ≤ t2) :
    (calculateScore sim titleGuess artistGuess track t2).score ≤
      (calculateScore sim titleGuess artistGuess track t1).score := by
  have hb : timeBonus t2 ≤ timeBonus t1 :=
    max_le_max le_rfl (by linarith)
  simp only [calculateScore, jsRound]
  exact Int.floor_le_floor (by nlinarith)

/-- C3 witness: monotonicity at the concrete pair of elapsed times 0 ≤ 30
for `sampleTrack` with exact guesses. -/
theorem C3_score_antitone_witness :
    (calculateScore specSimilarity "Song" "Artist" sampleTrack 30).score ≤
      (calculateScore specSimilarity "Song" "Artist" sampleTrack 0).score :=
  C3_score_antitone specSimilarity "Song" "Artist" sampleTrack 0 30 (by norm_num)

/-- C4.  The correctness flag is true iff both the title similarity and
the artist similarity strictly exceed 0.8; the right-hand side mentions
neither the numeric score nor the elapsed time, which is quantified
arbitrarily. -/
theorem C4_isCorrect_iff (sim : String → String → ℚ) (titleGuess artistGuess : String)
    (track : Track) (elapsed : ℚ) :
    (calculateScore sim titleGuess artistGuess track elapsed).isCorrect = true ↔
      ((0.8 : ℚ) < sim titleGuess track.name ∧
        (0.8 : ℚ) < sim artistGuess (track.artists.headI).name) := by
  simp [calculateScore]

/-- C5.  When every valid track of the fetched playlist is already in
the played set, `handlePlaylistSelect` sets the user-visible "no more
tracks" error and changes nothing else: the current track and the played
set are exactly those of the pre-state. -/
theorem C5_all_played (validate : Track → Bool) (items : List PlaylistTrackItem)
    (randIdx : ℕ) (s : AppState)
    (h : ∀ t ∈ (items.map PlaylistTrackItem.track).filter validate,
      s.playedTracks.contains t.id = true) :
    (handlePlaylistSelect validate (.ok items) randIdx s).error =
      some "No more unplayed tracks in this playlist!" ∧
    (handlePlaylistSelect validate (.ok items) randIdx s).currentTrack = s.currentTrack ∧
    (handlePlaylistSelect validate (.ok items) randIdx s).playedTracks = s.playedTracks := by
  have hnil : validUnplayed validate items s.playedTracks = [] := by
    apply List.filter_eq_nil_iff.mpr
    intro t ht
    simpa using h t ht
  simp [handlePlaylistSelect, hnil]

/-- C5 witness: a concrete playlist whose single valid track is already
played leaves a concrete pre-state unchanged apart from the error. -/
theorem C5_all_played_witness :
    (handlePlaylistSelect (fun _ => true) (.ok [⟨sampleTrack⟩]) 0
        ⟨none, none, ["t1"]⟩).error =
      some "No more unplayed tracks in this playlist!" ∧
    (handlePlaylistSelect (fun _ => true) (.ok [⟨sampleTrack⟩]) 0
        ⟨none, none, ["t1"]⟩).currentTrack = (⟨none, none, ["t1"]⟩ : AppState).currentTrack ∧
    (handlePlaylistSelect (fun _ => true) (.ok [⟨sampleTrack⟩]) 0
        ⟨none, none, ["t1"]⟩).playedTracks = (⟨none, none, ["t1"]⟩ : AppState).playedTracks :=
  C5_all_played (fun _ => true) [⟨sampleTrack⟩] 0 ⟨none, none, ["t1"]⟩
    (by
      intro t ht
      simp only [List.map_cons, List.map_nil, List.filter_cons_of_pos, List.filter_nil,
        List.mem_singleton] at ht
      subst ht
      rfl)

/-- C6.  When the list of valid unplayed tracks is non-empty (the chosen
random index is in range), the selected track is valid, its identifier is
not in the pre-state played set, it becomes the current track, its
identifier is added to the played set, and the played set only grows;
hence no identifier can be selected twice in one session. -/
theorem C6_fresh_selection (validate : Track → Bool) (items : List PlaylistTrackItem)
    (randIdx : ℕ) (s : AppState)
    (hidx : randIdx < (validUnplayed validate items s.playedTracks).length) :
    (handlePlaylistSelect validate (.ok items) randIdx s).currentTrack =
      some ((validUnplayed validate items s.playedTracks).getD randIdx default) ∧
    validate ((validUnplayed validate items s.playedTracks).getD randIdx default) = true ∧
    s.playedTracks.contains
      ((validUnplayed validate items s.playedTracks).getD randIdx default).id = false ∧
    (handlePlaylistSelect validate (.ok items) randIdx s).playedTracks.contains
      ((validUnplayed validate items s.playedTracks).getD randIdx default).id = true ∧
    ∀ x ∈ s.playedTracks,
      x ∈ (handlePlaylistSelect validate (.ok items) randIdx s).playedTracks := by
  set chosen := (validUnplayed validate items s.playedTracks).getD randIdx default with hchosen
  have hne : ¬ (validUnplayed validate items s.playedTracks).length = 0 := by omega
  have hmem : chosen ∈ validUnplayed validate items s.playedTracks := by
    rw [hchosen, List.getD_eq_getElem _ _ hidx]
    exact List.getElem_mem hidx
  have hfiltered := List.mem_filter.mp hmem
  have hnotplayed : s.playedTracks.contains chosen.id = false := by
    have := hfiltered.2
    simp only [Bool.not_eq_true'] at this
    exact this
  have hvalid : validate chosen = true := (List.mem_filter.mp hfiltered.1).2
  have hsel : handlePlaylistSelect validate (.ok items) randIdx s =
      { currentTrack := some chosen
        error := none
        playedTracks := insertPlayed s.playedTracks chosen.id } := by
    simp only [handlePlaylistSelect]
    rw [if_neg hne]
  have hins : insertPlayed s.playedTracks chosen.id = s.playedTracks ++ [chosen.id] := by
    unfold insertPlayed
    rw [hnotplayed]
    simp
  refine ⟨?_, hvalid, hnotplayed, ?_, ?_⟩
  · rw [hsel]
  · rw [hsel]
    show (insertPlayed s.playedTracks chosen.id).contains chosen.id = true
    rw [hins]
    simp
  · intro x hx
    rw [hsel]
    show x ∈ insertPlayed s.playedTracks chosen.id
    rw [hins]
    exact List.mem_append_left _ hx

/-- C6 witness: a concrete playlist with one valid unplayed track and a
concrete empty pre-state; the in-range index hypothesis is discharged. -/
theorem C6_fresh_selection_witness :
    (handlePlaylistSelect (fun _ => true) (.ok [⟨sampleTrack⟩]) 0
        ⟨none, none, []⟩).currentTrack =
      some ((validUnplayed (fun _ => true) [⟨sampleTrack⟩] []).getD 0 default) ∧
    (fun _ => true) ((validUnplayed (fun _ => true) [⟨sampleTrack⟩] []).getD 0 default) = true ∧
    ([] : List String).contains
      ((validUnplayed (fun _ => true) [⟨sampleTrack⟩] []).getD 0 default).id = false ∧
    (handlePlaylistSelect (fun _ => true) (.ok [⟨sampleTrack⟩]) 0
        ⟨none, none, []⟩).playedTracks.contains
      ((validUnplayed (fun _ => true) [⟨sampleTrack⟩] []).getD 0 default).id = true ∧
    ∀ x ∈ ([] : List String),
      x ∈ (handlePlaylistSelect (fun _ => true) (.ok [⟨sampleTrack⟩]) 0
        ⟨none, none, []⟩).playedTracks :=
  C6_fresh_selection (fun _ => true) [⟨sampleTrack⟩] 0 ⟨none, none, []⟩
    (by simp [validUnplayed])

/-- A concrete `GameState` in the `Scored` phase, used to instantiate
theorems on concrete inputs. -/
def sampleScoredState : GameState :=
  { timer := 12
    isGuessing := true
    titleGuess := "Song"
    artistGuess := "Artist"
    result := some { score := 8000, isCorrect := true }
    hasStartedPlaying := true }

/-- C7.  From any state in the `Scored` phase (a result is stored), the
replay action resets the timer to 0, both guess inputs to the empty
string and the stored result to `none`, and invokes the orchestrator's
play-again callback. -/
theorem C7_playAgain_resets (s : GameState) (_h : s.result.isSome = true) :
    (handlePlayAgain s).1.timer = 0 ∧
    (handlePlayAgain s).1.titleGuess = "" ∧
    (handlePlayAgain s).1.artistGuess = "" ∧
    (handlePlayAgain s).1.result = none ∧
    (handlePlayAgain s).2 = true := by
  simp [handlePlayAgain]

/-- C7 witness: the reset at the concrete scored state. -/
theorem C7_playAgain_resets_witness :
    (handlePlayAgain sampleScoredState).1.timer = 0 ∧
    (handlePlayAgain sampleScoredState).1.titleGuess = "" ∧
    (handlePlayAgain sampleScoredState).1.artistGuess = "" ∧
    (handlePlayAgain sampleScoredState).1.result = none ∧
    (handlePlayAgain sampleScoredState).2 = true :=
  C7_playAgain_resets sampleScoredState (by rfl)

/-- C8.  The claim states that invoking the pause-and-guess action while
already in the `Guessing` phase leaves the session state, including the
playback state, unchanged.  At the concrete guessing state
`sampleScoredState` (which has `isGuessing = true`) with playback on,
the handler unconditionally calls `togglePlayback()` and turns playback
off, so the playback state is not unchanged. -/
theorem C8_counterexample :
    sampleScoredState.isGuessing = true ∧
    (handlePauseAndGuess sampleScoredState true).2 = false :=
  ⟨rfl, rfl⟩

/-- C8 (amended).  Invoking the pause-and-guess action while already in
the `Guessing` phase leaves the component state (guessing flag, timer,
guesses, result) unchanged, but still toggles the playback state: the
handler has no transition guard, it always calls `togglePlayback()`. -/
theorem C8_pauseAndGuess_while_guessing (s : GameState) (isPlaying : Bool)
    (h : s.isGuessing = true) :
    (handlePauseAndGuess s isPlaying).1 = s ∧
    (handlePauseAndGuess s isPlaying).2 = !isPlaying := by
  cases s
  simp_all [handlePauseAndGuess]

/-- C8 witness: the amended statement at the concrete guessing state
with playback on. -/
theorem C8_pauseAndGuess_while_guessing_witness :
    (handlePauseAndGuess sampleScoredState true).1 = sampleScoredState ∧
    (handlePauseAndGuess sampleScoredState true).2 = !true :=
  C8_pauseAndGuess_while_guessing sampleScoredState true (by rfl)

/-- C9.  When the playlist-tracks fetch rejects, `handlePlaylistSelect`
sets the generic retry-prompting message and leaves the current track
and the played set exactly as they were (atomicity on error). -/
theorem C9_fetch_error (validate : Track → Bool) (msg : String) (randIdx : ℕ)
    (s : AppState) :
    (handlePlaylistSelect validate (.error msg) randIdx s).error =
      some "Failed to load tracks. Please try again." ∧
    (handlePlaylistSelect validate (.error msg) randIdx s).currentTrack = s.currentTrack ∧
    (handlePlaylistSelect validate (.error msg) randIdx s).playedTracks = s.playedTracks := by
  simp [handlePlaylistSelect]

/-- C10.  For every track whose artist list has more than one artist,
both the score computation and the recorded history entry depend only on
the first artist: the history entry's `artistName` is the first artist's
name, and the guess result is unchanged if the remaining artists are
replaced arbitrarily. -/
theorem C10_first_artist_only (sim : String → String → ℚ) (track : Track)
    (a1 : Artist) (rest restAlt : List Artist) (now : ℤ) (s : GameState)
    (hart : track.artists = a1 :: rest) (_hmore : rest ≠ []) :
    (handleSubmitGuess sim track now s).2.2.artistName = a1.name ∧
    calculateScore sim s.titleGuess s.artistGuess track s.timer =
      calculateScore sim s.titleGuess s.artistGuess
        { track with artists := a1 :: restAlt } s.timer := by
  constructor
  · simp [handleSubmitGuess, hart, List.headI]
  · simp [calculateScore, hart, List.headI]

/-- C10 witness: `sampleTrack` has two artists; the history entry records
the first one and the score ignores the second. -/
theorem C10_first_artist_only_witness :
    (handleSubmitGuess specSimilarity sampleTrack 0
        sampleScoredState).2.2.artistName = "Artist" ∧
    calculateScore specSimilarity sampleScoredState.titleGuess
        sampleScoredState.artistGuess sampleTrack sampleScoredState.timer =
      calculateScore specSimilarity sampleScoredState.titleGuess
        sampleScoredState.artistGuess
        { sampleTrack with artists := [⟨"Artist"⟩] } sampleScoredState.timer :=
  C10_first_artist_only specSimilarity sampleTrack ⟨"Artist"⟩ [⟨"Other"⟩] []
    0 sampleScoredState (by rfl) (by simp)

end QwTrack
